import Mathlib

/-!
Verification of the push-to-talk dictation pipeline (`src/python/dictate.py`
and `src/python/dictate_backup.py`).

The embedding is shallow: each side-effecting Python method becomes a pure
Lean function from an explicit application state to a new state paired with
a trace of externally observable effects (notifications, clipboard writes,
paste keystrokes, disk writes, queue puts, thread spawns, model calls, ...).
Audio sample blocks are `List Int` (the float32 sample values themselves are
irrelevant to every property here; only block identity, order and sample
counts matter).  The duration test `len(audio) / SAMPLE_RATE <
MIN_RECORD_SECONDS` is embedded over `ℚ`; for the sample counts that can
arise this agrees exactly with the source's float comparison.
-/

namespace DictateModel

/-- `SAMPLE_RATE = 16000` from the source. -/
def SAMPLE_RATE : ℚ := 16000

/-- `MIN_RECORD_SECONDS = 0.3` from the source. -/
def MIN_RECORD_SECONDS : ℚ := 0.3

/-- One audio block delivered by the input-stream callback (`indata`). -/
abbrev Block := List Int

/-- Tasks that can sit in `dictate_backup.py`'s `work_queue`. -/
inductive Task where
  | warmup
  | transcribe
  deriving DecidableEq

/-- Externally observable effects of the pipeline, in program order.
Effects common to both program variants share one vocabulary. -/
inductive Eff where
  | loadingShow
  | loadingHide
  | spawnThread
  | put (t : Task)
  | transcribeCall (samples : List Int)
  | notify (title sub msg : String)
  | beep
  | glowShow
  | glowHide
  | toastShow
  | toastHide
  | blinkStart
  | blinkStop
  | activate (app : String)
  | sleep
  | clipboard (text : String)
  | pasteCombo
  | persist (stamp text : String)
  | log (msg : String)
  deriving DecidableEq

/-- Keys seen by the global listener; `other` stands for any non-hotkey key. -/
inductive Key where
  | alt_r
  | other
  deriving DecidableEq

/-- `HOTKEY = keyboard.Key.alt_r`. -/
def HOTKEY : Key := Key.alt_r

/-- External stimuli that drive the application: hotkey events from the
listener thread, the menu toggle, and audio blocks from the stream callback. -/
inductive Event where
  | press (k : Key)
  | release (k : Key)
  | toggle
  | audio (b : Block)

/-- Ghost record of one started recording session's lifecycle state. -/
inductive SessState where
  | Recording
  | Closed
  deriving DecidableEq

/-- Effect classifiers used to count occurrences in traces. -/
def isTranscribeCall : Eff → Bool
  | .transcribeCall _ => true
  | _ => false

def isNotify : Eff → Bool
  | .notify _ _ _ => true
  | _ => false

def isClipboard : Eff → Bool
  | .clipboard _ => true
  | _ => false

def isPaste : Eff → Bool
  | .pasteCombo => true
  | _ => false

def isPersist : Eff → Bool
  | .persist _ _ => true
  | _ => false

def isSpawn : Eff → Bool
  | .spawnThread => true
  | _ => false

def isPut : Eff → Bool
  | .put _ => true
  | _ => false

def isActivate : Eff → Bool
  | .activate _ => true
  | _ => false

def isLog : Eff → Bool
  | .log _ => true
  | _ => false

/-- The "Recording too short" notification fired by both variants. -/
def tooShortNote : Eff :=
  Eff.notify "Dictate" "Recording too short" "Hold Option+R a bit longer"

/-- Python's `str.strip()`: drop leading and trailing whitespace.  (Defined
by structural recursion over the character list so that concrete runs
evaluate; `String.trim` evaluates the same way but is defined by
well-founded recursion.) -/
def pyStrip (s : String) : String :=
  ⟨((s.data.dropWhile Char.isWhitespace).reverse.dropWhile Char.isWhitespace).reverse⟩

/-- Duration in seconds attributed to a captured sample sequence:
`len(audio) / SAMPLE_RATE`. -/
def duration (sampleCount : Nat) : ℚ := (sampleCount : ℚ) / SAMPLE_RATE

/-- The threshold test is equivalent to a sample-count bound:
`n / 16000 < 0.3` iff `n < 4800`. -/
theorem duration_lt_iff (n : Nat) : duration n < MIN_RECORD_SECONDS ↔ n < 4800 := by
  simp only [duration, SAMPLE_RATE, MIN_RECORD_SECONDS]
  rw [div_lt_iff₀ (by norm_num : (0 : ℚ) < 16000)]
  norm_num

/-- Decide the threshold test by the equivalent `Nat` comparison, so that
model runs evaluate by kernel reduction. -/
instance (n : Nat) : Decidable (duration n < MIN_RECORD_SECONDS) :=
  decidable_of_iff (n < 4800) (duration_lt_iff n).symm

namespace Dictate

/-!
Model of `src/python/dictate.py` (`DictateApp`).  The `sessions` field is a
ghost variable: one entry per session ever started, in start order, recording
each session's lifecycle state.  It is written exactly where the source
starts/stops a recording and exists only so that claims about "sessions" can
be stated; all other fields mirror source attributes.
-/

structure AppState where
  recording : Bool
  audio_data : List Block
  recent_transcriptions : List (String × String)
  icon : String
  record_button_title : String
  sessions : List SessState
  deriving DecidableEq

/-- Field state after `DictateApp.__init__` (before any event). -/
def init : AppState :=
  { recording := false
    audio_data := []
    recent_transcriptions := []
    icon := "mic.png"
    record_button_title := "Start Recording"
    sessions := [] }

/-- `DictateApp.start_recording`. -/
def start_recording (s : AppState) : AppState × List Eff :=
  ({ s with
      audio_data := []
      recording := true
      icon := "speaking.png"
      record_button_title := "Stop Recording"
      sessions := s.sessions ++ [SessState.Recording] },
   [Eff.log "Recording started"])

/-- `DictateApp.stop_recording`.  Setting `recording = False` closes the open
session, hence every ghost session entry becomes `Closed`. -/
def stop_recording (s : AppState) : AppState × List Eff :=
  let s' := { s with
      recording := false
      icon := "mic.png"
      record_button_title := "Start Recording"
      sessions := s.sessions.map fun _ => SessState.Closed }
  if s.audio_data = [] then
    (s', [Eff.log "Recording stopped", Eff.log "Stop pressed but no audio captured"])
  else
    (s', [Eff.log "Recording stopped", Eff.loadingShow, Eff.spawnThread])

/-- `DictateApp.audio_callback`; `indata.copy()` is value semantics here. -/
def audio_callback (s : AppState) (b : Block) : AppState :=
  if s.recording then { s with audio_data := s.audio_data ++ [b] } else s

/-- `DictateApp.on_press`. -/
def on_press (s : AppState) (k : Key) : AppState × List Eff :=
  if k = HOTKEY ∧ s.recording = false then start_recording s else (s, [])

/-- `DictateApp.on_release`. -/
def on_release (s : AppState) (k : Key) : AppState × List Eff :=
  if k = HOTKEY ∧ s.recording = true then stop_recording s else (s, [])

/-- `DictateApp.toggle_recording` (menu-item callback). -/
def toggle_recording (s : AppState) : AppState × List Eff :=
  if s.recording then stop_recording s else start_recording s

/-- Dispatch one external stimulus to the handler the source wires it to. -/
def handleEvent (s : AppState) : Event → AppState × List Eff
  | .press k => on_press s k
  | .release k => on_release s k
  | .toggle => toggle_recording s
  | .audio b => (audio_callback s b, [])

/-- Run a sequence of stimuli, keeping only the state. -/
def run (s : AppState) (es : List Event) : AppState :=
  es.foldl (fun s e => (handleEvent s e).1) s

/-- `DictateApp.transcribe_and_paste`, parameterized by the transcription
collaborator (`mlx_whisper.transcribe(...)["text"]`) and the timestamp
`datetime.now().strftime(...)`. -/
def transcribe_and_paste (model : List Int → String) (now : String)
    (s : AppState) : AppState × List Eff :=
  if s.audio_data = [] then
    (s, [Eff.log "Transcribe called with no audio data", Eff.loadingHide])
  else
    let audio := s.audio_data.flatten
    if duration audio.length < MIN_RECORD_SECONDS then
      (s, [Eff.log "Audio captured",
           Eff.log "Audio too short, skipping transcription",
           tooShortNote,
           Eff.loadingHide])
    else
      let text := pyStrip (model audio)
      if text = "" then
        (s, [Eff.log "Audio captured",
             Eff.transcribeCall audio,
             Eff.log "Transcription returned",
             Eff.notify "Dictate" "No transcription result" "Try again or speak longer",
             Eff.log "No text returned from transcription",
             Eff.loadingHide])
      else
        ({ s with recent_transcriptions :=
              ((now, text) :: s.recent_transcriptions).take 5 },
         [Eff.log "Audio captured",
          Eff.transcribeCall audio,
          Eff.log "Transcription returned",
          Eff.persist now text,
          Eff.clipboard text,
          Eff.pasteCombo,
          Eff.log "Transcript saved",
          Eff.loadingHide])

/-- `stop_recording` together with the worker thread it spawns: when audio
was captured, the spawned thread runs `transcribe_and_paste` on the stopped
state.  The trace is the stop trace followed by the thread's trace. -/
def stop_and_drain (model : List Int → String) (now : String)
    (s : AppState) : AppState × List Eff :=
  let p := stop_recording s
  if s.audio_data = [] then p
  else
    let q := transcribe_and_paste model now p.1
    (q.1, p.2 ++ q.2)

end Dictate

namespace Backup

/-!
Model of `src/python/dictate_backup.py` (`DictateApp`).  The feature flags
`ENABLE_GLOW`, `ENABLE_TOAST`, `ENABLE_NOTIFICATIONS`, `ENABLE_BEEP` are all
`True` in the source, so the guarded effects always fire.  The transcription
collaborator may raise, so it is `List Int → Except String String`; an
uncaught Python exception is modelled as a `some`-valued third component that
the caller propagates.
-/

structure BState where
  recording : Bool
  audio_data : List Block
  source_app : Option String
  blink_state : Bool
  icon : String
  record_button_title : String
  deriving DecidableEq

/-- Field state after `DictateApp.__init__` (before any event). -/
def init : BState :=
  { recording := false
    audio_data := []
    source_app := none
    blink_state := false
    icon := "loading.png"
    record_button_title := "Start Recording" }

/-- `DictateApp.start_recording`; `front` is the value
`NSWorkspace.sharedWorkspace().frontmostApplication()` returns at this call. -/
def start_recording (front : String) (s : BState) : BState × List Eff :=
  ({ s with
      audio_data := []
      source_app := some front
      recording := true
      icon := "speaking.png"
      record_button_title := "Stop Recording" },
   [Eff.blinkStart, Eff.glowShow, Eff.toastShow,
    Eff.notify "Dictate" "Recording" "Recording started",
    Eff.beep, Eff.log "Recording started"])

/-- `DictateApp.stop_recording`. -/
def stop_recording (s : BState) : BState × List Eff :=
  let s' := { s with
      recording := false
      blink_state := false
      icon := "mic.png"
      record_button_title := "Start Recording" }
  let effs := [Eff.blinkStop, Eff.glowHide, Eff.toastHide,
               Eff.notify "Dictate" "Recording" "Recording stopped",
               Eff.beep, Eff.log "Recording stopped"]
  if s.audio_data = [] then (s', effs)
  else (s', effs ++ [Eff.put Task.transcribe])

/-- `DictateApp.audio_callback`. -/
def audio_callback (s : BState) (b : Block) : BState :=
  if s.recording then { s with audio_data := s.audio_data ++ [b] } else s

/-- `DictateApp.paste_text`: activates the snapshot whenever one is present
(the current frontmost application is never consulted), then sets the
clipboard and injects Cmd+V. -/
def paste_text (text : String) (s : BState) : List Eff :=
  (match s.source_app with
   | some a => [Eff.activate a, Eff.sleep]
   | none => []) ++
  [Eff.clipboard text, Eff.pasteCombo]

/-- `DictateApp.do_transcription`.  The third component is `some e` when the
transcription collaborator raised `e`; the source has no `try`, so the
exception escapes this method. -/
def do_transcription (model : List Int → Except String String) (now : String)
    (s : BState) : BState × List Eff × Option String :=
  if s.audio_data = [] then
    (s, [], none)
  else
    let audio := s.audio_data.flatten
    if duration audio.length < MIN_RECORD_SECONDS then
      (s, [Eff.log "Audio captured", Eff.log "Audio too short", tooShortNote], none)
    else
      match model audio with
      | .error e => (s, [Eff.log "Audio captured", Eff.transcribeCall audio], some e)
      | .ok raw =>
        let text := pyStrip raw
        if text = "" then
          ({ s with source_app := none },
           [Eff.log "Audio captured", Eff.transcribeCall audio,
            Eff.log "Transcription chars",
            Eff.notify "Dictate" "No transcription" "Try again"],
           none)
        else
          ({ s with source_app := none },
           [Eff.log "Audio captured", Eff.transcribeCall audio,
            Eff.log "Transcription chars"] ++
           paste_text text s ++
           [Eff.persist now text],
           none)

/-- One iteration body of `DictateApp.transcription_worker` on a dequeued
task: the state update, the emitted effects, and an uncaught exception when
one was raised. -/
def runTask (model : List Int → Except String String) (now : String)
    (s : BState) : Task → BState × List Eff × Option String
  | Task.warmup =>
    match model (List.replicate 16000 0) with
    | .error e => (s, [Eff.transcribeCall (List.replicate 16000 0)], some e)
    | .ok _ => ({ s with icon := "mic.png" },
                [Eff.transcribeCall (List.replicate 16000 0)], none)
  | Task.transcribe => do_transcription model now s

/-- `DictateApp.transcription_worker` run on a queue of tasks.  The loop body
has no exception handler, so a raised error terminates the thread: the
returned `Bool` is `false` when the worker died, and no later task is
processed. -/
def transcription_worker (model : List Int → Except String String)
    (now : String) : BState → List Task → BState × List Eff × Bool
  | s, [] => (s, [], true)
  | s, t :: ts =>
    match runTask model now s t with
    | (s', effs, some _) => (s', effs, false)
    | (s', effs, none) =>
      let rest := transcription_worker model now s' ts
      (rest.1, effs ++ rest.2.1, rest.2.2)

end Backup

namespace Worker

/-!
Interleaving semantics of `dictate_backup.py`'s job queue.  `work_queue` is a
FIFO (`queue.Queue`); exactly one thread runs `transcription_worker`, whose
loop body blocks on `get()` and then processes the dequeued job to completion
before the next `get()`.  Jobs carry ghost identifiers so that ordering can
be stated.  `inFlight` is the job the worker thread is currently processing;
because there is a single worker thread, a `dequeue` step is only enabled
when no job is in flight.  `submitted` is a ghost log of every job ever
enqueued, in `put` order.
-/

structure WState where
  queue : List Nat
  inFlight : Option Nat
  completed : List Nat
  submitted : List Nat
  deriving DecidableEq

/-- Queue state at process start: empty, worker idle. -/
def winit : WState := { queue := [], inFlight := none, completed := [], submitted := [] }

/-- Atomic steps of the queue/worker system. -/
inductive WStep : WState → WState → Prop where
  | submit (w : WState) (j : Nat) :
      WStep w { w with queue := w.queue ++ [j], submitted := w.submitted ++ [j] }
  | dequeue (w : WState) (j : Nat) (q' : List Nat)
      (hfree : w.inFlight = none) (hq : w.queue = j :: q') :
      WStep w { w with queue := q', inFlight := some j }
  | finish (w : WState) (j : Nat) (h : w.inFlight = some j) :
      WStep w { w with inFlight := none, completed := w.completed ++ [j] }

/-- States reachable from process start. -/
def Reachable (w : WState) : Prop := Relation.ReflTransGen WStep winit w

/-- Every job ever submitted is, at every moment, either completed, in
flight, or still queued — in exactly submission order. -/
def queueInvariant (w : WState) : Prop :=
  w.submitted = w.completed ++ w.inFlight.toList ++ w.queue

theorem queueInvariant_init : queueInvariant winit := rfl

theorem queueInvariant_step {w w' : WState} (hw : queueInvariant w)
    (hs : WStep w w') : queueInvariant w' := by
  cases hs with
  | submit j =>
    simp only [queueInvariant] at hw ⊢
    simp [hw]
  | dequeue j q' hfree hq =>
    simp only [queueInvariant] at hw ⊢
    rw [hfree, hq] at hw
    simpa using hw
  | finish j h =>
    simp only [queueInvariant] at hw ⊢
    rw [h] at hw
    simpa using hw

theorem queueInvariant_reachable {w : WState} (h : Reachable w) :
    queueInvariant w := by
  induction h with
  | refl => exact queueInvariant_init
  | tail _ hs ih => exact queueInvariant_step ih hs

end Worker

namespace Threads

/-!
Interleaving semantics of `dictate.py`'s per-job threading.  There is no
queue in this variant: `stop_recording` (lines 155-157) starts a fresh
daemon `threading.Thread` running `transcribe_and_paste` for every stop with
a non-empty buffer — this is the `Eff.spawnThread` effect of
`Dictate.stop_recording` — with no lock and no join.  Spawned threads run
concurrently, so any live thread may be the next to finish; nothing
serializes the transcription calls.  Jobs carry ghost identifiers:
`spawned` logs spawn (= submission) order, `running` is the set of threads
currently alive, `completed` the order in which they finished.
-/

structure TState where
  running : List Nat
  completed : List Nat
  spawned : List Nat
  deriving DecidableEq

/-- Thread state at process start. -/
def tinit : TState := { running := [], completed := [], spawned := [] }

/-- Atomic steps: a stop with captured audio spawns one thread; any live
thread may finish next. -/
inductive TStep : TState → TState → Prop where
  | spawn (t : TState) (j : Nat) :
      TStep t { t with running := t.running ++ [j], spawned := t.spawned ++ [j] }
  | finish (t : TState) (j : Nat) (h : j ∈ t.running) :
      TStep t { t with running := t.running.erase j,
                       completed := t.completed ++ [j] }

/-- States reachable from process start. -/
def TReachable (t : TState) : Prop := Relation.ReflTransGen TStep tinit t

/-- What survives without a queue: no job is lost or duplicated — every
spawned job is either still running or completed, exactly once — but no
ordering guarantee. -/
theorem spawned_perm_step {t t' : TState}
    (h : (t.completed ++ t.running).Perm t.spawned) (hs : TStep t t') :
    (t'.completed ++ t'.running).Perm t'.spawned := by
  cases hs with
  | spawn j =>
    rw [← List.append_assoc]
    exact h.append_right [j]
  | finish j hj =>
    have h1 : (t.completed ++ [j]) ++ t.running.erase j
        = t.completed ++ (j :: t.running.erase j) := by simp
    rw [h1]
    exact (List.Perm.append_left t.completed
      (List.perm_cons_erase hj).symm).trans h

theorem spawned_perm_reachable {t : TState} (h : TReachable t) :
    (t.completed ++ t.running).Perm t.spawned := by
  induction h with
  | refl => exact List.Perm.refl _
  | tail _ hs ih => exact spawned_perm_step ih hs

end Threads

namespace History

/-!
`RecentHistory` from `dictate.py`: `self.recent_transcriptions`.  Entries are
`(timestamp, text)`; timestamps are modelled as `Nat` (a ghost abstraction of
the strictly increasing `datetime.now()` timestamp strings and of the files'
`st_mtime`), so that "newest first" can be stated.
-/

abbrev Entry := Nat × String

/-- The update performed on success in `transcribe_and_paste`:
`insert(0, e)` followed by `[:5]`. -/
def record (e : Entry) (h : List Entry) : List Entry := (e :: h).take 5

/-- Newest first: timestamps are non-increasing along the list. -/
abbrev newestFirst (h : List Entry) : Prop :=
  h.Pairwise fun a b => b.1 ≤ a.1

/-- Insertions happen in chronological order: the existing history is newest
first, the pending entries are in non-decreasing timestamp order, and every
pending entry is at least as new as everything already recorded. -/
abbrev chronological (h0 : List Entry) (es : List Entry) : Prop :=
  newestFirst h0 ∧ es.Pairwise (fun a b => a.1 ≤ b.1) ∧
    ∀ e ∈ es, ∀ x ∈ h0, x.1 ≤ e.1

/-- `DictateApp.load_recent_transcriptions`: the transcript files sorted by
`st_mtime` descending (Python's stable `sorted(..., reverse=True)`), then
truncated to the 5 most recent. -/
def load_recent_transcriptions (files : List Entry) : List Entry :=
  (files.mergeSort fun a b => b.1 ≤ a.1).take 5

theorem record_length_le (e : Entry) (h : List Entry) :
    (record e h).length ≤ 5 := by
  simp [record]

theorem record_newestFirst {e : Entry} {h : List Entry}
    (hh : newestFirst h) (he : ∀ x ∈ h, x.1 ≤ e.1) :
    newestFirst (record e h) := by
  refine List.Pairwise.sublist (List.take_sublist 5 _) ?_
  exact List.pairwise_cons.mpr ⟨he, hh⟩

theorem foldl_record_length_le (es : List Entry) (h0 : List Entry)
    (h : h0.length ≤ 5) :
    (es.foldl (fun h e => record e h) h0).length ≤ 5 := by
  induction es generalizing h0 with
  | nil => simpa using h
  | cons e es ih => exact ih _ (record_length_le e h0)

theorem foldl_record_newestFirst (es : List Entry) (h0 : List Entry)
    (h : chronological h0 es) :
    newestFirst (es.foldl (fun h e => record e h) h0) := by
  induction es generalizing h0 with
  | nil => exact h.1
  | cons e es ih =>
    obtain ⟨h0nf, hpw, hge⟩ := h
    have hpw' := List.pairwise_cons.mp hpw
    refine ih (record e h0) ?_
    refine ⟨record_newestFirst h0nf (fun x hx => hge e (by simp) x hx), hpw'.2, ?_⟩
    intro e' he' x hx
    have hx' : x ∈ e :: h0 := (List.take_sublist 5 _).mem hx
    rcases List.mem_cons.mp hx' with hxe | hx0
    · subst hxe
      exact hpw'.1 e' he'
    · exact hge e' (by simp [he']) x hx0

theorem load_recent_length_le (files : List Entry) :
    (load_recent_transcriptions files).length ≤ 5 := by
  simp [load_recent_transcriptions]

theorem load_recent_newestFirst (files : List Entry) :
    newestFirst (load_recent_transcriptions files) := by
  refine List.Pairwise.sublist (List.take_sublist 5 _) ?_
  have hs := @List.sorted_mergeSort Entry
    (fun a b : Entry => decide (b.1 ≤ a.1))
    (fun a b c hab hbc => by
      simp only [decide_eq_true_eq] at hab hbc ⊢
      exact le_trans hbc hab)
    (fun a b => by
      simp only [Bool.or_eq_true, decide_eq_true_eq]
      exact le_total b.1 a.1)
    files
  exact hs.imp fun hab => by simpa using hab

end History

namespace Dictate

theorem stop_recording_fst (s : AppState) :
    (stop_recording s).1 = { s with
      recording := false
      icon := "mic.png"
      record_button_title := "Start Recording"
      sessions := s.sessions.map fun _ => SessState.Closed } := by
  rw [stop_recording]
  split <;> rfl

theorem stop_recording_snd_of_ne (s : AppState) (hne : ¬s.audio_data = []) :
    (stop_recording s).2
      = [Eff.log "Recording stopped", Eff.loadingShow, Eff.spawnThread] := by
  rw [stop_recording]
  rw [if_neg hne]

/-- Ghost invariant tying the recording flag to the session log: the number
of sessions currently in `Recording` state is 1 when the flag is set and 0
otherwise. -/
def recInv (s : AppState) : Prop :=
  s.sessions.count SessState.Recording = if s.recording then 1 else 0

theorem recInv_start {s : AppState} (h : recInv s) (hr : s.recording = false) :
    recInv (start_recording s).1 := by
  simp only [recInv, start_recording] at h ⊢
  rw [hr] at h
  simp [List.count_append, h]

theorem recInv_stop (s : AppState) : recInv (stop_recording s).1 := by
  rw [recInv, stop_recording_fst]
  simp [List.count_replicate]

theorem recInv_handleEvent {s : AppState} (h : recInv s) (e : Event) :
    recInv (handleEvent s e).1 := by
  cases e with
  | press k =>
    simp only [handleEvent, on_press]
    split
    · next hc => exact recInv_start h hc.2
    · exact h
  | release k =>
    simp only [handleEvent, on_release]
    split
    · exact recInv_stop s
    · exact h
  | toggle =>
    simp only [handleEvent, toggle_recording]
    split
    · exact recInv_stop s
    · next hc => exact recInv_start h (by simpa using hc)
  | audio b =>
    simp only [handleEvent, audio_callback]
    split
    · exact h
    · exact h

theorem recInv_run (s : AppState) (es : List Event) (h : recInv s) :
    recInv (run s es) := by
  induction es generalizing s with
  | nil => exact h
  | cons e es ih => exact ih _ (recInv_handleEvent h e)

theorem run_audio (s : AppState) (bs : List Block) (h : s.recording = true) :
    run s (bs.map Event.audio) = { s with audio_data := s.audio_data ++ bs } := by
  induction bs generalizing s with
  | nil => simp [run]
  | cons b bs ih =>
    show run (audio_callback s b) (bs.map Event.audio) = _
    rw [audio_callback, if_pos h,
        ih { s with audio_data := s.audio_data ++ [b] } h]
    simp [List.append_assoc]

theorem transcribe_filter (model : List Int → String) (now : String)
    (s : AppState) (hne : ¬s.audio_data = [])
    (hdur : ¬duration s.audio_data.flatten.length < MIN_RECORD_SECONDS) :
    (transcribe_and_paste model now s).2.filter isTranscribeCall
      = [Eff.transcribeCall s.audio_data.flatten] := by
  rw [transcribe_and_paste, if_neg hne]
  simp only [if_neg hdur]
  split <;> simp [isTranscribeCall, tooShortNote]

theorem transcribe_too_short_eq (model : List Int → String) (now : String)
    (s : AppState) (hne : ¬s.audio_data = [])
    (hdur : duration s.audio_data.flatten.length < MIN_RECORD_SECONDS) :
    transcribe_and_paste model now s
      = (s, [Eff.log "Audio captured",
             Eff.log "Audio too short, skipping transcription",
             tooShortNote, Eff.loadingHide]) := by
  rw [transcribe_and_paste, if_neg hne]
  simp only [if_pos hdur]

theorem transcribe_success_eq (model : List Int → String) (now : String)
    (s : AppState) (hne : ¬s.audio_data = [])
    (hdur : ¬duration s.audio_data.flatten.length < MIN_RECORD_SECONDS)
    (htext : ¬pyStrip (model s.audio_data.flatten) = "") :
    transcribe_and_paste model now s
      = ({ s with recent_transcriptions :=
             ((now, pyStrip (model s.audio_data.flatten))
               :: s.recent_transcriptions).take 5 },
         [Eff.log "Audio captured",
          Eff.transcribeCall s.audio_data.flatten,
          Eff.log "Transcription returned",
          Eff.persist now (pyStrip (model s.audio_data.flatten)),
          Eff.clipboard (pyStrip (model s.audio_data.flatten)),
          Eff.pasteCombo,
          Eff.log "Transcript saved",
          Eff.loadingHide]) := by
  rw [transcribe_and_paste, if_neg hne]
  simp only [if_neg hdur, if_neg htext]

end Dictate

namespace Backup

theorem stop_fst_eq (s : BState) :
    (stop_recording s).1 = { s with
      recording := false
      blink_state := false
      icon := "mic.png"
      record_button_title := "Start Recording" } := by
  rw [stop_recording]
  split <;> rfl

theorem stop_snd_of_ne (s : BState) (hne : ¬s.audio_data = []) :
    (stop_recording s).2
      = [Eff.blinkStop, Eff.glowHide, Eff.toastHide,
         Eff.notify "Dictate" "Recording" "Recording stopped",
         Eff.beep, Eff.log "Recording stopped", Eff.put Task.transcribe] := by
  rw [stop_recording, if_neg hne]
  rfl

theorem stop_recording_snd_of_empty (s : BState) (he : s.audio_data = []) :
    (stop_recording s).2
      = [Eff.blinkStop, Eff.glowHide, Eff.toastHide,
         Eff.notify "Dictate" "Recording" "Recording stopped",
         Eff.beep, Eff.log "Recording stopped"] := by
  rw [stop_recording, if_pos he]

theorem do_transcription_short_eq (model : List Int → Except String String)
    (now : String) (s : BState) (hne : ¬s.audio_data = [])
    (hdur : duration s.audio_data.flatten.length < MIN_RECORD_SECONDS) :
    do_transcription model now s
      = (s, [Eff.log "Audio captured", Eff.log "Audio too short", tooShortNote],
         none) := by
  rw [do_transcription, if_neg hne]
  simp only [if_pos hdur]

theorem do_transcription_error_eq (model : List Int → Except String String)
    (now : String) (s : BState) (e : String) (hne : ¬s.audio_data = [])
    (hdur : ¬duration s.audio_data.flatten.length < MIN_RECORD_SECONDS)
    (herr : model s.audio_data.flatten = Except.error e) :
    do_transcription model now s
      = (s, [Eff.log "Audio captured", Eff.transcribeCall s.audio_data.flatten],
         some e) := by
  rw [do_transcription, if_neg hne]
  simp only [if_neg hdur, herr]

theorem do_transcription_success_eq (model : List Int → Except String String)
    (now : String) (s : BState) (raw : String) (hne : ¬s.audio_data = [])
    (hdur : ¬duration s.audio_data.flatten.length < MIN_RECORD_SECONDS)
    (hok : model s.audio_data.flatten = Except.ok raw) (htext : ¬pyStrip raw = "") :
    do_transcription model now s
      = ({ s with source_app := none },
         [Eff.log "Audio captured", Eff.transcribeCall s.audio_data.flatten,
          Eff.log "Transcription chars"] ++ paste_text (pyStrip raw) s ++
          [Eff.persist now (pyStrip raw)],
         none) := by
  rw [do_transcription, if_neg hne]
  simp only [if_neg hdur, hok, if_neg htext]

/-- Without a `try`, an exception raised while processing a `transcribe`
task escapes the `while True` loop: the worker returns dead (`false`) having
emitted only that task's pre-raise effects, and never touches the tasks
still queued behind it. -/
theorem worker_error_stops (model : List Int → Except String String)
    (now : String) (s : BState) (ts : List Task) (s' : BState)
    (effs : List Eff) (e : String)
    (h : do_transcription model now s = (s', effs, some e)) :
    transcription_worker model now s (Task.transcribe :: ts) = (s', effs, false) := by
  simp only [transcription_worker, runTask, h]

end Backup

/-- C1: for every sequence of hotkey press/release events, interleaved
arbitrarily with UI toggle invocations and audio-block deliveries, at most
one session is ever in the `Recording` state; a press of the hotkey while
the recording flag is already true leaves the entire state unchanged (no new
session, no buffer reset) and emits nothing, and a release while the flag is
false likewise leaves everything unchanged. -/
theorem claim1_single_recording_session :
    (∀ s : Dictate.AppState, s.recording = true →
        Dictate.handleEvent s (Event.press HOTKEY) = (s, [])) ∧
    (∀ s : Dictate.AppState, s.recording = false →
        Dictate.handleEvent s (Event.release HOTKEY) = (s, [])) ∧
    (∀ es : List Event,
        (Dictate.run Dictate.init es).sessions.count SessState.Recording ≤ 1) := by
  refine ⟨?_, ?_, ?_⟩
  · intro s h
    simp [Dictate.handleEvent, Dictate.on_press, h]
  · intro s h
    simp [Dictate.handleEvent, Dictate.on_release, h]
  · intro es
    have h := Dictate.recInv_run Dictate.init es (by simp [Dictate.recInv, Dictate.init])
    rw [Dictate.recInv] at h
    rw [h]
    split <;> simp

/-- Witness for C1: in the state reached right after a start, a repeated
hotkey press is a no-op, and after stopping, a release is a no-op. -/
theorem claim1_single_recording_session_witness :
    ((Dictate.start_recording Dictate.init).1.recording = true ∧
      Dictate.handleEvent (Dictate.start_recording Dictate.init).1 (Event.press HOTKEY)
        = ((Dictate.start_recording Dictate.init).1, [])) ∧
    (Dictate.init.recording = false ∧
      Dictate.handleEvent Dictate.init (Event.release HOTKEY) = (Dictate.init, [])) :=
  ⟨⟨by decide, claim1_single_recording_session.1 _ (by decide)⟩,
   ⟨by decide, claim1_single_recording_session.2.1 _ (by decide)⟩⟩

/-- C9: every audio block delivered while the recording flag is true is
appended to the session buffer and blocks delivered while it is false are
dropped; the buffer is reset to empty at recording start; and for a session
consisting of a hotkey press followed by the blocks `bs`, the buffer on stop
equals `bs` and the one sample sequence handed to the transcription
collaborator is exactly `bs.flatten`, the concatenation of the delivered
blocks in arrival order. -/
theorem claim9_lossless_capture :
    (∀ (s : Dictate.AppState) (b : Block), s.recording = true →
        Dictate.audio_callback s b = { s with audio_data := s.audio_data ++ [b] }) ∧
    (∀ (s : Dictate.AppState) (b : Block), s.recording = false →
        Dictate.audio_callback s b = s) ∧
    (∀ s : Dictate.AppState, (Dictate.start_recording s).1.audio_data = []) ∧
    (∀ (s : Dictate.AppState) (bs : List Block) (model : List Int → String) (now : String),
        s.recording = false → bs ≠ [] →
        ¬duration bs.flatten.length < MIN_RECORD_SECONDS →
        (Dictate.run s (Event.press HOTKEY :: bs.map Event.audio)).audio_data = bs ∧
        (Dictate.stop_and_drain model now
            (Dictate.run s (Event.press HOTKEY :: bs.map Event.audio))).2.filter isTranscribeCall
          = [Eff.transcribeCall bs.flatten]) := by
  refine ⟨?_, ?_, ?_, ?_⟩
  · intro s b h
    rw [Dictate.audio_callback, if_pos h]
  · intro s b h
    rw [Dictate.audio_callback]
    simp [h]
  · intro s
    rfl
  · intro s bs model now hrec hbs hdur
    have hstep : Dictate.run s (Event.press HOTKEY :: bs.map Event.audio)
        = Dictate.run (Dictate.start_recording s).1 (bs.map Event.audio) := by
      show Dictate.run (Dictate.on_press s HOTKEY).1 (bs.map Event.audio) = _
      rw [Dictate.on_press, if_pos ⟨rfl, hrec⟩]
    have hbuf : (Dictate.run s (Event.press HOTKEY :: bs.map Event.audio)).audio_data = bs := by
      rw [hstep, Dictate.run_audio _ _ rfl]
      simp [Dictate.start_recording]
    refine ⟨hbuf, ?_⟩
    set s1 := Dictate.run s (Event.press HOTKEY :: bs.map Event.audio) with hs1
    have hne : ¬s1.audio_data = [] := by
      rw [hbuf]; exact hbs
    rw [Dictate.stop_and_drain]
    simp only [if_neg hne]
    rw [List.filter_append, Dictate.stop_recording_snd_of_ne _ hne,
        Dictate.transcribe_filter]
    · rw [Dictate.stop_recording_fst]
      simp [isTranscribeCall, hbuf]
    · rw [Dictate.stop_recording_fst]
      simpa using hne
    · rw [Dictate.stop_recording_fst]
      simpa [hbuf] using hdur

/-- Witness for C9: a fresh app, one 4800-sample block (0.3 s), any model. -/
theorem claim9_lossless_capture_witness :
    (Dictate.init.recording = false ∧ ([List.replicate 4800 (0 : Int)] : List Block) ≠ [] ∧
      ¬duration ([List.replicate 4800 (0 : Int)] : List Block).flatten.length
        < MIN_RECORD_SECONDS) ∧
    ((Dictate.run Dictate.init
        (Event.press HOTKEY :: ([List.replicate 4800 (0 : Int)] : List Block).map Event.audio)).audio_data
        = [List.replicate 4800 (0 : Int)] ∧
      (Dictate.stop_and_drain (fun _ => "hello") "ts"
          (Dictate.run Dictate.init
            (Event.press HOTKEY :: ([List.replicate 4800 (0 : Int)] : List Block).map Event.audio))).2.filter
          isTranscribeCall
        = [Eff.transcribeCall ([List.replicate 4800 (0 : Int)] : List Block).flatten]) :=
  ⟨⟨by decide, by decide, by
      rw [duration_lt_iff]
      simp only [List.flatten_cons, List.flatten_nil, List.append_nil, List.length_replicate]
      decide⟩,
   claim9_lossless_capture.2.2.2 Dictate.init _ (fun _ => "hello") "ts"
     (by decide) (by decide) (by
      rw [duration_lt_iff]
      simp only [List.flatten_cons, List.flatten_nil, List.append_nil, List.length_replicate]
      decide)⟩

/-- C3: for every recording of at least 0.3 s whose transcription output is
non-empty after trimming, exactly one paste injection, exactly one clipboard
write and exactly one transcript persist occur, all carrying the trimmed
collaborator output, and exactly one history entry `(now, trimmed text)` is
pushed at the front of the bounded history. -/
theorem claim3_single_delivery (s : Dictate.AppState) (model : List Int → String)
    (now : String) (hne : ¬s.audio_data = [])
    (hdur : ¬duration s.audio_data.flatten.length < MIN_RECORD_SECONDS)
    (htext : ¬pyStrip (model s.audio_data.flatten) = "") :
    (Dictate.transcribe_and_paste model now s).2.countP isPaste = 1 ∧
    (Dictate.transcribe_and_paste model now s).2.countP isClipboard = 1 ∧
    (Dictate.transcribe_and_paste model now s).2.countP isPersist = 1 ∧
    Eff.clipboard (pyStrip (model s.audio_data.flatten))
      ∈ (Dictate.transcribe_and_paste model now s).2 ∧
    Eff.persist now (pyStrip (model s.audio_data.flatten))
      ∈ (Dictate.transcribe_and_paste model now s).2 ∧
    (Dictate.transcribe_and_paste model now s).1.recent_transcriptions
      = (now, pyStrip (model s.audio_data.flatten))
          :: s.recent_transcriptions.take 4 := by
  rw [Dictate.transcribe_success_eq model now s hne hdur htext]
  refine ⟨?_, ?_, ?_, ?_, ?_, ?_⟩ <;>
    simp [isPaste, isClipboard, isPersist, List.take_succ_cons]

/-- Witness for C3: one 4800-sample block, model output with surrounding
whitespace. -/
theorem claim3_single_delivery_witness :
    (¬({ Dictate.init with
          audio_data := [List.replicate 4800 (0 : Int)] } : Dictate.AppState).audio_data = [] ∧
      ¬duration ({ Dictate.init with
          audio_data := [List.replicate 4800 (0 : Int)] } : Dictate.AppState).audio_data.flatten.length
          < MIN_RECORD_SECONDS ∧
      ¬pyStrip ((fun _ => " hello world ") (({ Dictate.init with
          audio_data := [List.replicate 4800 (0 : Int)] } : Dictate.AppState).audio_data.flatten) : String) = "") ∧
    (Dictate.transcribe_and_paste (fun _ => " hello world ") "2026-02-03"
        { Dictate.init with audio_data := [List.replicate 4800 (0 : Int)] }).1.recent_transcriptions
      = [("2026-02-03", "hello world")] := by
  have h1 : ¬({ Dictate.init with
      audio_data := [List.replicate 4800 (0 : Int)] } : Dictate.AppState).audio_data = [] := by
    decide
  have h2 : ¬duration ({ Dictate.init with
      audio_data := [List.replicate 4800 (0 : Int)] } : Dictate.AppState).audio_data.flatten.length
      < MIN_RECORD_SECONDS := by
    rw [duration_lt_iff]
    simp only [List.flatten_cons, List.flatten_nil, List.append_nil, List.length_replicate]
    decide
  have h3 : ¬(pyStrip (" hello world " : String) = "") := by decide
  refine ⟨⟨h1, h2, h3⟩, ?_⟩
  have := (claim3_single_delivery
    { Dictate.init with audio_data := [List.replicate 4800 (0 : Int)] }
    (fun _ => " hello world ") "2026-02-03" h1 h2 h3).2.2.2.2.2
  rw [this]
  decide

/-- Counterexample to C2: the duration check lives in the worker, after the
job hand-off, so stopping a 1-sample (1/16000 s) recording spawns the
transcription thread in `dictate.py` and puts one `transcribe` task on the
queue in `dictate_backup.py` — not zero jobs as claimed. -/
theorem claim2_counterexample :
    duration (Dictate.run Dictate.init
        [Event.press HOTKEY, Event.audio [0]]).audio_data.flatten.length
      < MIN_RECORD_SECONDS ∧
    (Dictate.stop_recording (Dictate.run Dictate.init
        [Event.press HOTKEY, Event.audio [0]])).2.countP isSpawn = 1 ∧
    (Backup.stop_recording (Backup.audio_callback
        (Backup.start_recording "Mail" Backup.init).1 [0])).2.countP isPut = 1 :=
  ⟨by decide, by decide, by decide⟩

/-- C2 (amended): closing a session whose captured duration is below 0.3 s
with a non-empty buffer hands off exactly one transcription job (a thread
spawn in `dictate.py`, a queue put in `dictate_backup.py`); the worker then
discards it: the too-short notification fires exactly once, no transcription
call is made, and the backup worker stays alive.  The final conjunct of each
part gives the exact end-to-end trace: hand-off first, then the worker's
"too short" handling, and nothing else. -/
theorem claim2_too_short_one_job :
    (∀ (s : Dictate.AppState) (model : List Int → String) (now : String),
      ¬s.audio_data = [] →
      duration s.audio_data.flatten.length < MIN_RECORD_SECONDS →
      (Dictate.stop_and_drain model now s).2.countP isSpawn = 1 ∧
      (Dictate.stop_and_drain model now s).2.count tooShortNote = 1 ∧
      (Dictate.stop_and_drain model now s).2.countP isTranscribeCall = 0 ∧
      Dictate.stop_and_drain model now s
        = ((Dictate.stop_recording s).1,
           [Eff.log "Recording stopped", Eff.loadingShow, Eff.spawnThread,
            Eff.log "Audio captured",
            Eff.log "Audio too short, skipping transcription",
            tooShortNote, Eff.loadingHide])) ∧
    (∀ (s : Backup.BState) (model : List Int → Except String String) (now : String),
      ¬s.audio_data = [] →
      duration s.audio_data.flatten.length < MIN_RECORD_SECONDS →
      (Backup.stop_recording s).2.countP isPut = 1 ∧
      (Backup.transcription_worker model now
          (Backup.stop_recording s).1 [Task.transcribe]).2.1.count tooShortNote = 1 ∧
      (Backup.transcription_worker model now
          (Backup.stop_recording s).1 [Task.transcribe]).2.1.countP isTranscribeCall = 0 ∧
      (Backup.transcription_worker model now
          (Backup.stop_recording s).1 [Task.transcribe]).2.2 = true ∧
      Backup.transcription_worker model now
          (Backup.stop_recording s).1 [Task.transcribe]
        = ((Backup.stop_recording s).1,
           [Eff.log "Audio captured", Eff.log "Audio too short", tooShortNote],
           true)) := by
  constructor
  · intro s model now hne hdur
    have hfst := Dictate.stop_recording_fst s
    have hne' : ¬(Dictate.stop_recording s).1.audio_data = [] := by
      rw [hfst]; exact hne
    have hdur' : duration (Dictate.stop_recording s).1.audio_data.flatten.length
        < MIN_RECORD_SECONDS := by
      rw [hfst]; exact hdur
    simp only [Dictate.stop_and_drain, if_neg hne]
    rw [Dictate.transcribe_too_short_eq model now _ hne' hdur',
        Dictate.stop_recording_snd_of_ne s hne]
    refine ⟨?_, ?_, ?_, ?_⟩
    · dsimp only; decide
    · dsimp only; decide
    · dsimp only; decide
    · rfl
  · intro s model now hne hdur
    have hfst := Backup.stop_fst_eq s
    have hne' : ¬(Backup.stop_recording s).1.audio_data = [] := by
      rw [hfst]; exact hne
    have hdur' : duration (Backup.stop_recording s).1.audio_data.flatten.length
        < MIN_RECORD_SECONDS := by
      rw [hfst]; exact hdur
    have hw : Backup.transcription_worker model now
        (Backup.stop_recording s).1 [Task.transcribe]
        = ((Backup.stop_recording s).1,
           [Eff.log "Audio captured", Eff.log "Audio too short", tooShortNote],
           true) := by
      simp only [Backup.transcription_worker, Backup.runTask,
        Backup.do_transcription_short_eq model now _ hne' hdur']
      rfl
    rw [Backup.stop_snd_of_ne s hne, hw]
    refine ⟨?_, ?_, ?_, ?_, ?_⟩
    · dsimp only; decide
    · dsimp only; decide
    · dsimp only; decide
    · rfl
    · rfl

/-- Witness for C2 (amended): a 1-sample recording in both variants. -/
theorem claim2_too_short_one_job_witness :
    ((¬(Dictate.run Dictate.init
          [Event.press HOTKEY, Event.audio [0]]).audio_data = [] ∧
       duration (Dictate.run Dictate.init
          [Event.press HOTKEY, Event.audio [0]]).audio_data.flatten.length
         < MIN_RECORD_SECONDS) ∧
      (Dictate.stop_and_drain (fun _ => "x") "ts" (Dictate.run Dictate.init
          [Event.press HOTKEY, Event.audio [0]])).2.count tooShortNote = 1) ∧
    ((¬(Backup.audio_callback
          (Backup.start_recording "Mail" Backup.init).1 [0]).audio_data = [] ∧
       duration (Backup.audio_callback
          (Backup.start_recording "Mail" Backup.init).1 [0]).audio_data.flatten.length
         < MIN_RECORD_SECONDS) ∧
      (Backup.stop_recording (Backup.audio_callback
          (Backup.start_recording "Mail" Backup.init).1 [0])).2.countP isPut = 1) :=
  ⟨⟨⟨by decide, by decide⟩,
    (claim2_too_short_one_job.1 _ (fun _ => "x") "ts" (by decide) (by decide)).2.1⟩,
   ⟨⟨by decide, by decide⟩,
    (claim2_too_short_one_job.2 _ (fun _ => Except.ok "x") "ts"
      (by decide) (by decide)).1⟩⟩

/-- Counterexample to C10: in `dictate_backup.py`, stopping a recording whose
buffer is empty still fires the unconditional "Recording stopped"
notification (and beep) — a user-visible signal — even though no job is
enqueued. -/
theorem claim10_counterexample :
    (Backup.start_recording "Mail" Backup.init).1.audio_data = [] ∧
    (Backup.stop_recording
        (Backup.start_recording "Mail" Backup.init).1).2.countP isNotify = 1 ∧
    (Backup.stop_recording
        (Backup.start_recording "Mail" Backup.init).1).2.countP isPut = 0 :=
  ⟨by decide, by decide, by decide⟩

/-- C10 (amended): stopping with an empty buffer enqueues no job and never
emits the too-short notification in either variant; in `dictate.py` nothing
user-visible fires at all (the trace is log lines only, no thread spawn, no
loading indicator), while `dictate_backup.py` still emits its unconditional
stop feedback (blink stop, glow/toast hide, "Recording stopped"
notification, beep). -/
theorem claim10_empty_buffer :
    (∀ (s : Dictate.AppState) (model : List Int → String) (now : String),
      s.audio_data = [] →
      Dictate.stop_and_drain model now s
        = ((Dictate.stop_recording s).1,
           [Eff.log "Recording stopped",
            Eff.log "Stop pressed but no audio captured"]) ∧
      (Dictate.stop_and_drain model now s).2.countP isSpawn = 0 ∧
      (Dictate.stop_and_drain model now s).2.countP isNotify = 0 ∧
      (Dictate.stop_and_drain model now s).2.all isLog = true) ∧
    (∀ s : Backup.BState, s.audio_data = [] →
      (Backup.stop_recording s).2
        = [Eff.blinkStop, Eff.glowHide, Eff.toastHide,
           Eff.notify "Dictate" "Recording" "Recording stopped",
           Eff.beep, Eff.log "Recording stopped"] ∧
      (Backup.stop_recording s).2.countP isPut = 0 ∧
      (Backup.stop_recording s).2.count tooShortNote = 0) := by
  constructor
  · intro s model now he
    have hp : Dictate.stop_and_drain model now s = Dictate.stop_recording s := by
      simp only [Dictate.stop_and_drain, if_pos he]
    have hsnd : (Dictate.stop_recording s).2
        = [Eff.log "Recording stopped",
           Eff.log "Stop pressed but no audio captured"] := by
      rw [Dictate.stop_recording, if_pos he]
    refine ⟨?_, ?_, ?_, ?_⟩
    · rw [hp, ← hsnd]
    · rw [hp, hsnd]; decide
    · rw [hp, hsnd]; decide
    · rw [hp, hsnd]; decide

  · intro s he
    rw [Backup.stop_recording_snd_of_empty s he]
    exact ⟨rfl, by decide, by decide⟩

/-- Witness for C10 (amended): start then immediately stop in both variants. -/
theorem claim10_empty_buffer_witness :
    (((Dictate.start_recording Dictate.init).1.audio_data = []) ∧
      (Dictate.stop_and_drain (fun _ => "x") "ts"
          (Dictate.start_recording Dictate.init).1).2.countP isNotify = 0) ∧
    (((Backup.start_recording "Mail" Backup.init).1.audio_data = []) ∧
      (Backup.stop_recording
          (Backup.start_recording "Mail" Backup.init).1).2.count tooShortNote = 0) :=
  ⟨⟨by decide,
    (claim10_empty_buffer.1 _ (fun _ => "x") "ts" (by decide)).2.2.1⟩,
   ⟨by decide,
    (claim10_empty_buffer.2 _ (by decide)).2.2⟩⟩

/-- Counterexample to C4: the claim covers `dictate.py` too, but that
variant has no queue — `stop_recording` starts a fresh thread per job.  In
its interleaving semantics, after sessions 1 and 2 are both stopped, the
state with both transcribe threads alive is reachable (two transcription
calls in flight concurrently), and the run may continue to completion order
`[2, 1]`: job 2, submitted second, completes before job 1. -/
theorem claim4_counterexample :
    Threads.TReachable
      { running := [1, 2], completed := [], spawned := [1, 2] } ∧
    Threads.TReachable
      { running := [], completed := [2, 1], spawned := [1, 2] } := by
  have s1 : Threads.TReachable
      { running := [1], completed := [], spawned := [1] } :=
    Relation.ReflTransGen.refl.tail (Threads.TStep.spawn Threads.tinit 1)
  have s2 : Threads.TReachable
      { running := [1, 2], completed := [], spawned := [1, 2] } :=
    s1.tail (Threads.TStep.spawn _ 2)
  have s3 : Threads.TReachable
      { running := [1], completed := [2], spawned := [1, 2] } :=
    s2.tail (Threads.TStep.finish _ 2 (by decide))
  have s4 : Threads.TReachable
      { running := [], completed := [2, 1], spawned := [1, 2] } :=
    s3.tail (Threads.TStep.finish _ 1 (by decide))
  exact ⟨s2, s4⟩

/-- C4 (amended): only `dictate_backup.py` serializes transcription: its
queue plus single worker guarantee that, in every reachable state, at most
one job is in flight and the completed jobs are an initial segment of the
submissions in submission order (A before B, never B before A).  In
`dictate.py` each stop spawns its own transcribe thread, so two
transcription calls can be in flight concurrently and jobs may complete in
either order; all that variant guarantees is that no spawned job is lost or
duplicated (spawned = completed plus running, up to order). -/
theorem claim4_fifo_single_worker :
    (∀ w : Worker.WState, Worker.Reachable w →
      w.inFlight.toList.length ≤ 1 ∧
      w.submitted = w.completed ++ w.inFlight.toList ++ w.queue ∧
      ∃ t, w.submitted = w.completed ++ t) ∧
    (∀ t : Threads.TState, Threads.TReachable t →
      (t.completed ++ t.running).Perm t.spawned) := by
  constructor
  · intro w h
    have hinv := Worker.queueInvariant_reachable h
    refine ⟨?_, hinv, ⟨w.inFlight.toList ++ w.queue, by
      rw [hinv, List.append_assoc]⟩⟩
    cases w.inFlight <;> simp
  · intro t h
    exact Threads.spawned_perm_reachable h

/-- End state of the two-job example run used to witness C4's queue part. -/
def wExample : Worker.WState :=
  { queue := [], inFlight := none, completed := [1, 2], submitted := [1, 2] }

/-- End state of the example run used to witness C4's thread part. -/
def tExample : Threads.TState :=
  { running := [3], completed := [4], spawned := [4, 3] }

/-- Witness for C4 (amended): for the queue, submit job 1, submit job 2
(while job 1 is still pending), then the worker dequeues and finishes each
in turn, completing `[1, 2]` in submission order; for the threads, spawn 4,
spawn 3, finish 4, reaching a state whose completed-plus-running jobs are a
permutation of the spawned ones. -/
theorem claim4_fifo_single_worker_witness :
    (wExample.inFlight.toList.length ≤ 1 ∧
      wExample.submitted
        = wExample.completed ++ wExample.inFlight.toList ++ wExample.queue ∧
      ∃ t, wExample.submitted = wExample.completed ++ t) ∧
    (tExample.completed ++ tExample.running).Perm tExample.spawned := by
  have s1 : Worker.Reachable
      { queue := [1], inFlight := none, completed := [], submitted := [1] } :=
    Relation.ReflTransGen.refl.tail (Worker.WStep.submit Worker.winit 1)
  have s2 : Worker.Reachable
      { queue := [1, 2], inFlight := none, completed := [], submitted := [1, 2] } :=
    s1.tail (Worker.WStep.submit _ 2)
  have s3 : Worker.Reachable
      { queue := [2], inFlight := some 1, completed := [], submitted := [1, 2] } :=
    s2.tail (Worker.WStep.dequeue _ 1 [2] rfl rfl)
  have s4 : Worker.Reachable
      { queue := [2], inFlight := none, completed := [1], submitted := [1, 2] } :=
    s3.tail (Worker.WStep.finish _ 1 rfl)
  have s5 : Worker.Reachable
      { queue := [], inFlight := some 2, completed := [1], submitted := [1, 2] } :=
    s4.tail (Worker.WStep.dequeue _ 2 [] rfl rfl)
  have s6 : Worker.Reachable wExample :=
    s5.tail (Worker.WStep.finish _ 2 rfl)
  have t1 : Threads.TReachable
      { running := [4], completed := [], spawned := [4] } :=
    Relation.ReflTransGen.refl.tail (Threads.TStep.spawn Threads.tinit 4)
  have t2 : Threads.TReachable
      { running := [4, 3], completed := [], spawned := [4, 3] } :=
    t1.tail (Threads.TStep.spawn _ 3)
  have t3 : Threads.TReachable tExample :=
    t2.tail (Threads.TStep.finish _ 4 (by decide))
  exact ⟨claim4_fifo_single_worker.1 wExample s6,
         claim4_fifo_single_worker.2 tExample t3⟩

/-- State of the backup app after start, one 4800-sample (0.3 s) block, and
stop: a session ready for its queued transcribe task. -/
def bReady : Backup.BState :=
  (Backup.stop_recording (Backup.audio_callback
    (Backup.start_recording "Mail" Backup.init).1 (List.replicate 4800 0))).1

theorem bReady_audio : bReady.audio_data = [List.replicate 4800 (0 : Int)] := rfl

theorem bReady_not_short :
    ¬duration bReady.audio_data.flatten.length < MIN_RECORD_SECONDS := by
  rw [bReady_audio, duration_lt_iff]
  simp only [List.flatten_cons, List.flatten_nil, List.append_nil, List.length_replicate]
  decide

/-- Counterexample to C5: with a collaborator that raises, the worker dies
on the first job: no notification fires at all (in particular no
transcription-failed signal), the worker loop does not stay alive, and the
second queued transcribe task is never processed — only one transcription
call ever happens. -/
theorem claim5_counterexample :
    (Backup.transcription_worker (fun _ => Except.error "boom") "ts" bReady
        [Task.transcribe, Task.transcribe]).2.2 = false ∧
    (Backup.transcription_worker (fun _ => Except.error "boom") "ts" bReady
        [Task.transcribe, Task.transcribe]).2.1.countP isTranscribeCall = 1 ∧
    (Backup.transcription_worker (fun _ => Except.error "boom") "ts" bReady
        [Task.transcribe, Task.transcribe]).2.1.countP isNotify = 0 := by
  have hw := Backup.worker_error_stops (fun _ => Except.error "boom") "ts"
    bReady [Task.transcribe] bReady
    [Eff.log "Audio captured", Eff.transcribeCall bReady.audio_data.flatten] "boom"
    (Backup.do_transcription_error_eq (fun _ => Except.error "boom") "ts" bReady
      "boom" (by decide) bReady_not_short rfl)
  rw [hw]
  refine ⟨rfl, ?_, ?_⟩ <;> simp [isTranscribeCall, isNotify]

/-- C5 (amended): an error raised by the transcription collaborator is not
caught at any job boundary: no failure signal is emitted (the trace holds
only the pre-call log and the model call itself), the session is abandoned
without retry, and the uncaught exception terminates the worker loop, so
every subsequently queued job is dropped unprocessed. -/
theorem claim5_uncaught_error_kills_worker (model : List Int → Except String String)
    (now : String) (s : Backup.BState) (ts : List Task) (e : String)
    (hne : ¬s.audio_data = [])
    (hdur : ¬duration s.audio_data.flatten.length < MIN_RECORD_SECONDS)
    (herr : model s.audio_data.flatten = Except.error e) :
    Backup.transcription_worker model now s (Task.transcribe :: ts)
      = (s, [Eff.log "Audio captured", Eff.transcribeCall s.audio_data.flatten],
         false) :=
  Backup.worker_error_stops model now s ts s
    [Eff.log "Audio captured", Eff.transcribeCall s.audio_data.flatten] e
    (Backup.do_transcription_error_eq model now s e hne hdur herr)

/-- Witness for C5 (amended): the ready session, an erroring collaborator,
and one more task queued behind the failing one. -/
theorem claim5_uncaught_error_kills_worker_witness :
    (¬bReady.audio_data = [] ∧
      ¬duration bReady.audio_data.flatten.length < MIN_RECORD_SECONDS ∧
      (fun _ : List Int => (Except.error "boom" : Except String String))
          bReady.audio_data.flatten = Except.error "boom") ∧
    Backup.transcription_worker (fun _ => Except.error "boom") "2026-02-03" bReady
        [Task.transcribe, Task.warmup]
      = (bReady,
         [Eff.log "Audio captured", Eff.transcribeCall bReady.audio_data.flatten],
         false) :=
  ⟨⟨by decide, bReady_not_short, rfl⟩,
   claim5_uncaught_error_kills_worker (fun _ => Except.error "boom") "2026-02-03"
     bReady [Task.warmup] "boom" (by decide) bReady_not_short rfl⟩

/-- C6: after any chronological sequence of `record` calls starting from a
bounded newest-first history, the history still has at most 5 entries and is
ordered newest-first; and the startup seed — the persisted transcripts
sorted by modification time, newest first, truncated to 5 — likewise has at
most 5 entries and is newest-first. -/
theorem claim6_history_bound (h0 es files : List History.Entry)
    (hlen : h0.length ≤ 5) (hchr : History.chronological h0 es) :
    (es.foldl (fun h e => History.record e h) h0).length ≤ 5 ∧
    History.newestFirst (es.foldl (fun h e => History.record e h) h0) ∧
    (History.load_recent_transcriptions files).length ≤ 5 ∧
    History.newestFirst (History.load_recent_transcriptions files) :=
  ⟨History.foldl_record_length_le es h0 hlen,
   History.foldl_record_newestFirst es h0 hchr,
   History.load_recent_length_le files,
   History.load_recent_newestFirst files⟩

/-- Witness for C6: two entries recorded after an existing one. -/
theorem claim6_history_bound_witness :
    (([(3, "c")] : List History.Entry).length ≤ 5 ∧
      History.chronological [(3, "c")] [(4, "d"), (5, "e")]) ∧
    History.newestFirst
      (([(4, "d"), (5, "e")] : List History.Entry).foldl
        (fun h e => History.record e h) [(3, "c")]) :=
  ⟨⟨by decide, by decide⟩,
    (claim6_history_bound [(3, "c")] [(4, "d"), (5, "e")] []
      (by decide) (by decide)).2.1⟩

/-- The paste dispatch as the claim words it (refinement comparator, written
from the spec sentence, not from the source): re-activate the snapshotted
focus target only if it differs from the application frontmost at paste
time, then set the clipboard, then inject the paste keystroke. -/
def pasteDispatcherClaimed (front : String) (snapshot : Option String)
    (text : String) : List Eff :=
  (match snapshot with
   | some a => if a ≠ front then [Eff.activate a, Eff.sleep] else []
   | none => []) ++ [Eff.clipboard text, Eff.pasteCombo]

/-- Counterexample to C7: when the snapshotted focus target is still the
frontmost application at paste time, the claimed dispatcher performs no
re-activation, but `paste_text` activates the snapshot unconditionally — it
never consults the current frontmost application. -/
theorem claim7_counterexample :
    (Backup.start_recording "Mail" Backup.init).1.source_app = some "Mail" ∧
    (Backup.paste_text "hi"
        (Backup.start_recording "Mail" Backup.init).1).countP isActivate = 1 ∧
    (pasteDispatcherClaimed "Mail" (some "Mail") "hi").countP isActivate = 0 ∧
    Backup.paste_text "hi" (Backup.start_recording "Mail" Backup.init).1
      ≠ pasteDispatcherClaimed "Mail" (some "Mail") "hi" :=
  ⟨by decide, by decide, by decide, by decide⟩

/-- C7 (amended): delivery uses the focus target snapshotted at recording
start and never reads the frontmost application at paste time: whenever a
snapshot was captured it is re-activated unconditionally (even if it is
still frontmost), then the clipboard is set to the text, then the paste
keystroke is injected, and on the success path `do_transcription` finally
clears the stored focus-target reference. -/
theorem claim7_snapshot_order (front now : String) (s0 s : Backup.BState)
    (model : List Int → Except String String) (raw a : String)
    (hne : ¬s.audio_data = [])
    (hdur : ¬duration s.audio_data.flatten.length < MIN_RECORD_SECONDS)
    (hok : model s.audio_data.flatten = Except.ok raw)
    (htext : ¬pyStrip raw = "")
    (happ : s.source_app = some a) :
    (Backup.start_recording front s0).1.source_app = some front ∧
    Backup.paste_text (pyStrip raw) s
      = [Eff.activate a, Eff.sleep, Eff.clipboard (pyStrip raw), Eff.pasteCombo] ∧
    Backup.do_transcription model now s
      = ({ s with source_app := none },
         [Eff.log "Audio captured", Eff.transcribeCall s.audio_data.flatten,
          Eff.log "Transcription chars",
          Eff.activate a, Eff.sleep, Eff.clipboard (pyStrip raw), Eff.pasteCombo,
          Eff.persist now (pyStrip raw)],
         none) := by
  refine ⟨rfl, ?_, ?_⟩
  · simp only [Backup.paste_text, happ]
    rfl
  · rw [Backup.do_transcription_success_eq model now s raw hne hdur hok htext]
    simp only [Backup.paste_text, happ]
    rfl

/-- Witness for C7 (amended): the ready session (snapshot "Mail"), a model
returning text with surrounding whitespace. -/
theorem claim7_snapshot_order_witness :
    (¬bReady.audio_data = [] ∧
      ¬duration bReady.audio_data.flatten.length < MIN_RECORD_SECONDS ∧
      (fun _ : List Int => (Except.ok " hi " : Except String String))
          bReady.audio_data.flatten = Except.ok " hi " ∧
      ¬pyStrip " hi " = "" ∧
      bReady.source_app = some "Mail") ∧
    Backup.paste_text (pyStrip " hi ") bReady
      = [Eff.activate "Mail", Eff.sleep, Eff.clipboard (pyStrip " hi "),
         Eff.pasteCombo] :=
  ⟨⟨by decide, bReady_not_short, rfl, by decide, by decide⟩,
   (claim7_snapshot_order "X" "2026-02-03" Backup.init bReady
      (fun _ => Except.ok " hi ") " hi " "Mail"
      (by decide) bReady_not_short rfl (by decide) (by decide)).2.1⟩

/-- Index of the first effect in a trace satisfying `p`. -/
def firstIdx (p : Eff → Bool) : List Eff → Option Nat
  | [] => none
  | e :: l => if p e then some 0 else (firstIdx p l).map (· + 1)

/-- Whether the first effect satisfying `p` occurs strictly before the first
effect satisfying `q`. -/
def happensBefore (p q : Eff → Bool) (l : List Eff) : Bool :=
  match firstIdx p l, firstIdx q l with
  | some i, some j => Nat.blt i j
  | _, _ => false

/-- The main-app success state used for C8: a fresh app holding one
4800-sample (0.3 s) block. -/
def sFull : Dictate.AppState :=
  { Dictate.init with audio_data := [List.replicate 4800 (0 : Int)] }

theorem sFull_not_short :
    ¬duration sFull.audio_data.flatten.length < MIN_RECORD_SECONDS := by
  rw [duration_lt_iff]
  simp only [sFull, List.flatten_cons, List.flatten_nil, List.append_nil,
    List.length_replicate]
  decide

/-- Counterexample to C8: in `dictate.py`'s `transcribe_and_paste` the
transcript is written to disk strictly before the clipboard is set and the
paste keystroke is injected, so clipboard delivery has not yet happened when
a persistence write error would strike. -/
theorem claim8_counterexample :
    happensBefore isClipboard isPersist
      (Dictate.transcribe_and_paste (fun _ => "hello") "ts" sFull).2 = false ∧
    happensBefore isPersist isClipboard
      (Dictate.transcribe_and_paste (fun _ => "hello") "ts" sFull).2 = true ∧
    happensBefore isPersist isPaste
      (Dictate.transcribe_and_paste (fun _ => "hello") "ts" sFull).2 = true := by
  rw [Dictate.transcribe_success_eq (fun _ => "hello") "ts" sFull
    (by decide) sFull_not_short (by decide)]
  refine ⟨?_, ?_, ?_⟩ <;> rfl

/-- C8 (amended): the two pipeline variants order delivery and persistence
oppositely.  In `dictate.py` the transcript disk write precedes both the
clipboard write and the paste injection (a persistence error there could
stop delivery); in `dictate_backup.py`'s worker, clipboard and paste precede
the disk write, as the claim describes. -/
theorem claim8_persist_order (s : Dictate.AppState) (model : List Int → String)
    (now : String) (sb : Backup.BState)
    (modelb : List Int → Except String String) (raw a : String)
    (hne : ¬s.audio_data = [])
    (hdur : ¬duration s.audio_data.flatten.length < MIN_RECORD_SECONDS)
    (htext : ¬pyStrip (model s.audio_data.flatten) = "")
    (hneb : ¬sb.audio_data = [])
    (hdurb : ¬duration sb.audio_data.flatten.length < MIN_RECORD_SECONDS)
    (hok : modelb sb.audio_data.flatten = Except.ok raw)
    (htextb : ¬pyStrip raw = "")
    (happ : sb.source_app = some a) :
    happensBefore isPersist isClipboard
      (Dictate.transcribe_and_paste model now s).2 = true ∧
    happensBefore isPersist isPaste
      (Dictate.transcribe_and_paste model now s).2 = true ∧
    happensBefore isClipboard isPersist
      (Backup.do_transcription modelb now sb).2.1 = true ∧
    happensBefore isPaste isPersist
      (Backup.do_transcription modelb now sb).2.1 = true := by
  rw [Dictate.transcribe_success_eq model now s hne hdur htext,
      Backup.do_transcription_success_eq modelb now sb raw hneb hdurb hok htextb]
  simp only [Backup.paste_text, happ]
  refine ⟨?_, ?_, ?_, ?_⟩ <;> rfl

/-- Witness for C8 (amended): concrete success runs of both variants. -/
theorem claim8_persist_order_witness :
    ((¬sFull.audio_data = [] ∧
       ¬duration sFull.audio_data.flatten.length < MIN_RECORD_SECONDS ∧
       ¬pyStrip ((fun _ => "hello") sFull.audio_data.flatten : String) = "") ∧
      (¬bReady.audio_data = [] ∧
        ¬duration bReady.audio_data.flatten.length < MIN_RECORD_SECONDS ∧
        (fun _ : List Int => (Except.ok "hello" : Except String String))
            bReady.audio_data.flatten = Except.ok "hello" ∧
        ¬pyStrip "hello" = "" ∧ bReady.source_app = some "Mail")) ∧
    (happensBefore isPersist isClipboard
        (Dictate.transcribe_and_paste (fun _ => "hello") "ts" sFull).2 = true ∧
      happensBefore isClipboard isPersist
        (Backup.do_transcription (fun _ => Except.ok "hello") "ts" bReady).2.1
          = true) := by
  have h := claim8_persist_order sFull (fun _ => "hello") "ts" bReady
    (fun _ => Except.ok "hello") "hello" "Mail"
    (by decide) sFull_not_short (by decide)
    (by decide) bReady_not_short rfl (by decide) (by decide)
  exact ⟨⟨⟨by decide, sFull_not_short, by decide⟩,
          ⟨by decide, bReady_not_short, rfl, by decide, by decide⟩⟩,
         ⟨h.1, h.2.2.1⟩⟩

end DictateModel
